import Mathlib

/-!
Verification of the sora_auto_toy automation engine against its design
specification.  The JavaScript modules (src/modules/register.js,
src/modules/tempmail.js) are shallowly embedded: the browser page is an
external collaborator, so every page interaction (evaluate, selector
queries, fetch, navigation) is modelled as an environment-supplied
outcome, while all control flow, retry logic, string scanning and
classification logic of the repository itself is translated directly
from the source.
-/

namespace SoraSpec

/-! ### Small JavaScript string helpers -/

/-- Does `pat` occur as a contiguous sublist of the character list? -/
def listContainsSub (pat : List Char) : List Char → Bool
  | [] => pat.isEmpty
  | c :: rest => pat.isPrefixOf (c :: rest) || listContainsSub pat rest

/-- JS String.prototype.includes, as used throughout register.js and
tempmail.js for substring tests. -/
def strContains (s pat : String) : Bool :=
  listContainsSub pat.toList s.toList

/-- JS whitespace, as stripped by String.prototype.trim and matched by
the regex class backslash-s (ASCII part plus the no-break space). -/
def isJsSpace (c : Char) : Bool :=
  c = ' ' || c = '\t' || c = '\n' || c = '\r' || c = '\x0b' || c = '\x0c' || c = ' '

/-- JS String.prototype.trim (whitespace stripping at both ends). -/
def jsTrim (s : String) : String :=
  String.mk (((s.toList.dropWhile isJsSpace).reverse.dropWhile isJsSpace).reverse)

/-! ### OpenAIRegister.withRetry (register.js lines 104-119)

The wrapped operation is modelled as a function from the 0-based attempt
index to an Except outcome; the JS loop `for (let i = 0; i < retries; i++)`
is translated with a structurally decreasing fuel that starts at
`retries`, so fuel runs out exactly when the loop condition fails.  The
function returns the surfaced outcome together with the number of times
the operation was invoked.  After the loop the code throws `lastError`,
which is `undefined` when `retries = 0`; the error channel is therefore
`Option E`, with `none` standing for the undefined throw. -/

def withRetryGo {E A : Type} (op : Nat → Except E A) : Nat → Nat → Option E → Except (Option E) A × Nat
  | _, 0, last => (Except.error last, 0)
  | i, fuel + 1, _ =>
    match op i with
    | Except.ok a => (Except.ok a, 1)
    | Except.error e =>
      let r := withRetryGo op (i + 1) fuel (some e)
      (r.1, r.2 + 1)

/-- OpenAIRegister.withRetry: run the operation up to `retries` times,
returning the first success or, after `retries` failures, the last
error. -/
def withRetry {E A : Type} (op : Nat → Except E A) (retries : Nat) : Except (Option E) A × Nat :=
  withRetryGo op 0 retries none

/-- Helper: if every attempt the loop can reach fails, the loop makes
exactly `fuel` invocations and surfaces the error of the last one. -/
theorem withRetryGo_all_fail {E A : Type} (op : Nat → Except E A) :
    ∀ (fuel i : Nat) (last : Option E), 1 ≤ fuel →
    (∀ j, j < fuel → ∃ e, op (i + j) = Except.error e) →
    ∃ e, op (i + fuel - 1) = Except.error e ∧
      withRetryGo op i fuel last = (Except.error (some e), fuel) := by
  intro fuel
  induction fuel with
  | zero => intro i last h; omega
  | succ f ih =>
    intro i last _ hall
    obtain ⟨e0, he0⟩ := hall 0 (by omega)
    simp only [Nat.add_zero] at he0
    rcases Nat.eq_zero_or_pos f with hf | hf
    · subst hf
      refine ⟨e0, by simpa using he0, ?_⟩
      simp [withRetryGo, he0]
    · obtain ⟨e, he, hgo⟩ := ih (i + 1) (some e0) hf
        (by intro j hj; obtain ⟨e', he'⟩ := hall (j + 1) (by omega)
            exact ⟨e', by rw [← he']; ring_nf⟩)
      refine ⟨e, ?_, ?_⟩
      · rw [← he]; congr 1; omega
      · simp [withRetryGo, he0, hgo]

/-- Helper: if the first `k` attempts fail and attempt `k` succeeds
(with `k` inside the loop bound), the loop makes exactly `k + 1`
invocations and returns the success. -/
theorem withRetryGo_first_success {E A : Type} (op : Nat → Except E A) :
    ∀ (k fuel i : Nat) (last : Option E) (a : A), k < fuel →
    (∀ j, j < k → ∃ e, op (i + j) = Except.error e) →
    op (i + k) = Except.ok a →
    withRetryGo op i fuel last = (Except.ok a, k + 1) := by
  intro k
  induction k with
  | zero =>
    intro fuel i last a hk _ hok
    obtain ⟨f, rfl⟩ := Nat.exists_eq_succ_of_ne_zero (by omega : fuel ≠ 0)
    simp only [Nat.add_zero] at hok
    simp [withRetryGo, hok]
  | succ k ih =>
    intro fuel i last a hk hfail hok
    obtain ⟨f, rfl⟩ := Nat.exists_eq_succ_of_ne_zero (by omega : fuel ≠ 0)
    obtain ⟨e0, he0⟩ := hfail 0 (by omega)
    simp only [Nat.add_zero] at he0
    have hrec := ih f (i + 1) (some e0) a (by omega)
      (by intro j hj; obtain ⟨e', he'⟩ := hfail (j + 1) (by omega)
          exact ⟨e', by rw [← he']; ring_nf⟩)
      (by rw [← hok]; ring_nf)
    simp [withRetryGo, he0, hrec]

/-- C2: for every operation wrapped by withRetry with `attempts = N ≥ 1`:
if the operation fails on every attempt it is invoked exactly N times
and the wrapper surfaces the last error; if it first succeeds on 0-based
attempt k (so on the (k+1)-th invocation, k + 1 ≤ N), it is invoked
exactly k + 1 times and the wrapper returns that success. -/
theorem withRetry_invocation_counts {E A : Type} (op : Nat → Except E A) (N : Nat) (hN : 1 ≤ N) :
    ((∀ i, i < N → ∃ e, op i = Except.error e) →
      ∃ e, op (N - 1) = Except.error e ∧
        withRetry op N = (Except.error (some e), N)) ∧
    (∀ k a, k < N → (∀ i, i < k → ∃ e, op i = Except.error e) →
      op k = Except.ok a → withRetry op N = (Except.ok a, k + 1)) := by
  constructor
  · intro hall
    obtain ⟨e, he, hgo⟩ := withRetryGo_all_fail op N 0 none hN
      (by intro j hj; simpa using hall j hj)
    exact ⟨e, by simpa using he, by simpa [withRetry] using hgo⟩
  · intro k a hk hfail hok
    have := withRetryGo_first_success op k N 0 none a hk
      (by intro j hj; simpa using hfail j hj) (by simpa using hok)
    simpa [withRetry] using this

/-- Witness for C2 at concrete inputs: an always-failing operation with
3 attempts is invoked 3 times and surfaces the last error; an operation
failing twice then succeeding is invoked 3 times and returns the
success. -/
theorem withRetry_invocation_counts_witness :
    withRetry (fun _ => (Except.error "boom" : Except String Nat)) 3 = (Except.error (some "boom"), 3) ∧
    withRetry (fun i => if i < 2 then (Except.error "x" : Except String Nat) else Except.ok 42) 3 = (Except.ok 42, 3) := by
  constructor
  · obtain ⟨e, he, hgo⟩ :=
      (withRetry_invocation_counts (fun _ => (Except.error "boom" : Except String Nat)) 3 (by omega)).1
        (fun i _ => ⟨"boom", rfl⟩)
    have : e = "boom" := by simpa using he.symm
    rw [this] at hgo
    exact hgo
  · exact (withRetry_invocation_counts
      (fun i => if i < 2 then (Except.error "x" : Except String Nat) else Except.ok 42) 3 (by omega)).2
      2 42 (by omega) (fun i hi => ⟨"x", by interval_cases i <;> rfl⟩) (by rfl)

/-! ### OpenAIRegister.safeEvaluate (register.js lines 124-142)

`this.page.evaluate(fn)` is the browser collaborator; its outcome on the
(0-based) i-th invocation is supplied by the environment as
`ev i : Except JsError A`.  The loop is translated with structurally
decreasing fuel starting at `retries` (the invariant `fuel = retries - i`
holds at every call, so fuel runs out exactly when the loop condition
`i < retries` fails).  The result marks which exit was taken: a
successful evaluation, the post-loop `return defaultValue`, or a thrown
error; the second component counts the evaluate invocations made. -/

/-- A thrown JavaScript error, identified by its message. -/
structure JsError where
  message : String
deriving DecidableEq, Repr

/-- The navigation-class test of register.js lines 129-131: the error
message includes one of the three context-invalidation markers. -/
def isNavigationError (e : JsError) : Bool :=
  strContains e.message "Execution context was destroyed" ||
  strContains e.message "navigation" ||
  strContains e.message "Target closed"

/-- How a safeEvaluate call ended: value from a successful evaluation,
the defaultValue returned after the loop, or a thrown error. -/
inductive SafeEvalResult (A : Type) where
  | evaluated (a : A)
  | defaulted (a : A)
  | raised (e : JsError)
deriving DecidableEq, Repr

def safeEvaluateGo {A : Type} (ev : Nat → Except JsError A) (dv : A) (retries : Nat) : Nat → Nat → SafeEvalResult A × Nat
  | 0, i => (SafeEvalResult.defaulted dv, i)
  | fuel + 1, i =>
    match ev i with
    | Except.ok a => (SafeEvalResult.evaluated a, i + 1)
    | Except.error e =>
      if isNavigationError e && decide (i < retries - 1) then
        safeEvaluateGo ev dv retries fuel (i + 1)
      else (SafeEvalResult.raised e, i + 1)

/-- OpenAIRegister.safeEvaluate: evaluate in the page, retrying (after a
sleep) when the context was destroyed by a navigation, up to `retries`
attempts. -/
def safeEvaluate {A : Type} (ev : Nat → Except JsError A) (dv : A) (retries : Nat) : SafeEvalResult A × Nat :=
  safeEvaluateGo ev dv retries retries 0

/-- Helper: while the loop index is in range, the loop can only exit by
evaluating successfully or raising; the defaulted branch is unreachable. -/
theorem safeEvaluateGo_ne_defaulted {A : Type} (ev : Nat → Except JsError A) (dv : A) (retries : Nat) :
    ∀ (fuel i : Nat), fuel = retries - i → i < retries →
    ∀ a : A, (safeEvaluateGo ev dv retries fuel i).1 ≠ SafeEvalResult.defaulted a := by
  intro fuel
  induction fuel with
  | zero => intro i hfi hi; omega
  | succ f ih =>
    intro i hfi hi a
    simp only [safeEvaluateGo]
    cases hev : ev i with
    | ok b => simp
    | error e =>
      simp only
      by_cases hnav : (isNavigationError e && decide (i < retries - 1)) = true
      · rw [if_pos hnav]
        have hlt : i < retries - 1 := by
          have := (Bool.and_eq_true _ _).mp hnav
          exact of_decide_eq_true this.2
        exact ih (i + 1) (by omega) (by omega) a
      · rw [if_neg hnav]
        simp

/-- C4: for every evaluation environment, default value and
`retries ≥ 1`, safeEvaluate never takes the final `return defaultValue`
branch: it either returns a successful evaluation or raises. -/
theorem safeEvaluate_never_defaultValue {A : Type} (ev : Nat → Except JsError A) (dv : A) (retries : Nat)
    (hr : 1 ≤ retries) (a : A) :
    (safeEvaluate ev dv retries).1 ≠ SafeEvalResult.defaulted a := by
  exact safeEvaluateGo_ne_defaulted ev dv retries retries 0 (by omega) (by omega) a

/-- Witness for C4 at a concrete input: with a successful evaluation and
retries = 3, the result is not the defaulted marker. -/
theorem safeEvaluate_never_defaultValue_witness :
    (safeEvaluate (fun _ => Except.ok 5) 99 3).1 ≠ SafeEvalResult.defaulted 99 := by
  exact safeEvaluate_never_defaultValue (fun _ => Except.ok 5) 99 3 (by omega) 99

/-- C3 counterexample: a navigation-class error that persists through
all three attempts IS surfaced to the caller (the final attempt falls
through to `throw e`), contradicting the claim that navigation-class
errors are never surfaced. -/
theorem safeEvaluate_nav_error_surfaced :
    isNavigationError ⟨"Execution context was destroyed"⟩ = true ∧
    safeEvaluate (fun _ => Except.error ⟨"Execution context was destroyed"⟩) false 3
      = (SafeEvalResult.raised ⟨"Execution context was destroyed"⟩, 3) := by
  exact ⟨rfl, rfl⟩

/-- Helper: if the first j attempts all fail with navigation-class
errors and attempt j (0-based, in range) ends the loop - by succeeding,
by failing with a non-navigation error, or by being the last allowed
attempt - the loop result is as the source dictates. -/
theorem safeEvaluateGo_run {A : Type} (ev : Nat → Except JsError A) (dv : A) (retries : Nat) :
    ∀ (j fuel i : Nat), fuel = retries - i → i + j < retries →
    (∀ m, m < j → ∃ e, ev (i + m) = Except.error e ∧ isNavigationError e = true) →
    ((∀ a, ev (i + j) = Except.ok a →
        safeEvaluateGo ev dv retries fuel i = (SafeEvalResult.evaluated a, i + j + 1)) ∧
     (∀ e, ev (i + j) = Except.error e → isNavigationError e = false →
        safeEvaluateGo ev dv retries fuel i = (SafeEvalResult.raised e, i + j + 1)) ∧
     (∀ e, ev (i + j) = Except.error e → i + j = retries - 1 →
        safeEvaluateGo ev dv retries fuel i = (SafeEvalResult.raised e, i + j + 1))) := by
  intro j
  induction j with
  | zero =>
    intro fuel i hfi hi hnav
    obtain ⟨f, rfl⟩ : ∃ f, fuel = f + 1 := ⟨retries - i - 1, by omega⟩
    refine ⟨?_, ?_, ?_⟩
    · intro a hok
      simp only [Nat.add_zero] at hok
      simp [safeEvaluateGo, hok]
    · intro e herr hnn
      simp only [Nat.add_zero] at herr
      simp [safeEvaluateGo, herr, hnn]
    · intro e herr hlast
      simp only [Nat.add_zero] at herr hlast
      have : ¬ (i < retries - 1) := by omega
      simp [safeEvaluateGo, herr, this]
  | succ j ih =>
    intro fuel i hfi hi hnav
    obtain ⟨f, rfl⟩ : ∃ f, fuel = f + 1 := ⟨retries - i - 1, by omega⟩
    obtain ⟨e0, he0, hnav0⟩ := hnav 0 (by omega)
    simp only [Nat.add_zero] at he0 hnav0
    have hstep : safeEvaluateGo ev dv retries (f + 1) i = safeEvaluateGo ev dv retries f (i + 1) := by
      have hlt : i < retries - 1 := by omega
      simp [safeEvaluateGo, he0, hnav0, hlt]
    have hshift : ∀ m, m < j → ∃ e, ev (i + 1 + m) = Except.error e ∧ isNavigationError e = true := by
      intro m hm
      obtain ⟨e, he, hn⟩ := hnav (m + 1) (by omega)
      exact ⟨e, by rw [← he]; ring_nf, hn⟩
    obtain ⟨h1, h2, h3⟩ := ih f (i + 1) (by omega) (by omega) hshift
    refine ⟨?_, ?_, ?_⟩
    · intro a hok
      rw [hstep]
      have := h1 a (by rw [← hok]; ring_nf)
      rw [this]; congr 1; omega
    · intro e herr hnn
      rw [hstep]
      have := h2 e (by rw [← herr]; ring_nf) hnn
      rw [this]; congr 1; omega
    · intro e herr hlast
      rw [hstep]
      have := h3 e (by rw [← herr]; ring_nf) (by omega)
      rw [this]; congr 1; omega

/-- C3 amended: inside safeEvaluate a navigation-class error is
transparently retried only while attempts remain; if the final attempt
also fails with a navigation-class error that error IS surfaced to the
caller, and a non-navigation error propagates immediately, without
another attempt.  (j is the 0-based index of the first attempt that is
not a retried navigation failure.) -/
theorem safeEvaluate_nav_retry_behaviour {A : Type} (ev : Nat → Except JsError A) (dv : A) (retries : Nat)
    (j : Nat) (hj : j < retries)
    (hnav : ∀ m, m < j → ∃ e, ev m = Except.error e ∧ isNavigationError e = true) :
    ((∀ a, ev j = Except.ok a →
        safeEvaluate ev dv retries = (SafeEvalResult.evaluated a, j + 1)) ∧
     (∀ e, ev j = Except.error e → isNavigationError e = false →
        safeEvaluate ev dv retries = (SafeEvalResult.raised e, j + 1)) ∧
     (∀ e, ev j = Except.error e → j = retries - 1 →
        safeEvaluate ev dv retries = (SafeEvalResult.raised e, retries))) := by
  obtain ⟨h1, h2, h3⟩ := safeEvaluateGo_run ev dv retries j retries 0 (by omega) (by omega)
    (by intro m hm; simpa using hnav m hm)
  refine ⟨?_, ?_, ?_⟩
  · intro a hok
    have := h1 a (by simpa using hok)
    simpa [safeEvaluate] using this
  · intro e herr hnn
    have := h2 e (by simpa using herr) hnn
    simpa [safeEvaluate] using this
  · intro e herr hlast
    have := h3 e (by simpa using herr) (by omega)
    have hr : 0 + j + 1 = retries := by omega
    rw [hr] at this
    simpa [safeEvaluate] using this

/-- Witness for the amended C3 at concrete inputs: a non-navigation
error on the first attempt propagates immediately after one invocation. -/
theorem safeEvaluate_nav_retry_behaviour_witness :
    safeEvaluate (fun _ => (Except.error ⟨"boom"⟩ : Except JsError Bool)) false 3
      = (SafeEvalResult.raised ⟨"boom"⟩, 1) := by
  exact (safeEvaluate_nav_retry_behaviour (fun _ => (Except.error ⟨"boom"⟩ : Except JsError Bool)) false 3
    0 (by omega) (by intro m hm; omega)).2.1 ⟨"boom"⟩ rfl rfl

/-! ### Birthday generation (register.js lines 61-74 and 426-430)

`Math.random()` returns a value in [0, 1); each call is modelled as a
rational `q` with `0 ≤ q < 1`, and `Math.floor(Math.random() * n)` as
`⌊q * n⌋`.  Both generateBirthday and the inline generation inside
enterNameAndBirthday compute
  year  = currentYear - floor(random * 22) - 18
  month = floor(random * 12) + 1
  day   = floor(random * 28) + 1. -/

/-- Math.floor(q * n) for a Math.random() outcome q. -/
def jsFloorMul (q : ℚ) (n : ℕ) : ℤ :=
  Int.floor (q * n)

/-- A generated birth date (year, month, day as numbers). -/
structure Birthday where
  year : ℤ
  month : ℤ
  day : ℤ
deriving DecidableEq, Repr

/-- The numeric core of OpenAIRegister.generateBirthday (lines 62-65). -/
def generateBirthdayYMD (currentYear : ℤ) (qYear qMonth qDay : ℚ) : Birthday :=
  { year := currentYear - jsFloorMul qYear 22 - 18
    month := jsFloorMul qMonth 12 + 1
    day := jsFloorMul qDay 28 + 1 }

/-- JS String(n).padStart(2, zero-digit). -/
def padStart2 (s : String) : String :=
  String.mk (List.replicate (2 - s.length) '0') ++ s

/-- OpenAIRegister.generateBirthday: the formatted date string,
year/month/day for a Chinese page and month/day/year otherwise. -/
def generateBirthday (isChinesePage : Bool) (currentYear : ℤ) (qYear qMonth qDay : ℚ) : String :=
  let b := generateBirthdayYMD currentYear qYear qMonth qDay
  if isChinesePage then
    toString b.year ++ "/" ++ padStart2 (toString b.month) ++ "/" ++ padStart2 (toString b.day)
  else
    padStart2 (toString b.month) ++ "/" ++ padStart2 (toString b.day) ++ "/" ++ toString b.year

/-- The inline birthday generation of enterNameAndBirthday
(lines 427-430), which repeats the same three formulas. -/
def enterNameAndBirthdayYMD (currentYear : ℤ) (qYear qMonth qDay : ℚ) : Birthday :=
  { year := currentYear - jsFloorMul qYear 22 - 18
    month := jsFloorMul qMonth 12 + 1
    day := jsFloorMul qDay 28 + 1 }

/-- Bounds of Math.floor(q * n) for q in [0, 1) and n positive. -/
theorem jsFloorMul_bounds (q : ℚ) (n : ℕ) (hn : 0 < n) (h0 : 0 ≤ q) (h1 : q < 1) :
    0 ≤ jsFloorMul q n ∧ jsFloorMul q n ≤ (n : ℤ) - 1 := by
  unfold jsFloorMul
  constructor
  · exact Int.floor_nonneg.mpr (mul_nonneg h0 (by positivity))
  · have hlt : q * (n : ℚ) < (n : ℚ) := by
      have : (0 : ℚ) < (n : ℚ) := by exact_mod_cast hn
      nlinarith
    have := Int.floor_lt.mpr (by exact_mod_cast hlt : q * (n : ℚ) < ((n : ℤ) : ℚ))
    omega

/-- C1: for every call to generateBirthday and for the inline generation
in enterNameAndBirthday, the generated date yields an age (current year
minus birth year) in [18, 40] at generation time, the day is in [1, 28]
and the month is in [1, 12]; the two generators compute the same
formulas. -/
theorem generateBirthday_in_range (currentYear : ℤ) (qYear qMonth qDay : ℚ)
    (hy0 : 0 ≤ qYear) (hy1 : qYear < 1) (hm0 : 0 ≤ qMonth) (hm1 : qMonth < 1)
    (hd0 : 0 ≤ qDay) (hd1 : qDay < 1) :
    (18 ≤ currentYear - (generateBirthdayYMD currentYear qYear qMonth qDay).year ∧
      currentYear - (generateBirthdayYMD currentYear qYear qMonth qDay).year ≤ 40) ∧
    (1 ≤ (generateBirthdayYMD currentYear qYear qMonth qDay).month ∧
      (generateBirthdayYMD currentYear qYear qMonth qDay).month ≤ 12) ∧
    (1 ≤ (generateBirthdayYMD currentYear qYear qMonth qDay).day ∧
      (generateBirthdayYMD currentYear qYear qMonth qDay).day ≤ 28) ∧
    enterNameAndBirthdayYMD currentYear qYear qMonth qDay
      = generateBirthdayYMD currentYear qYear qMonth qDay := by
  have hy := jsFloorMul_bounds qYear 22 (by omega) hy0 hy1
  have hm := jsFloorMul_bounds qMonth 12 (by omega) hm0 hm1
  have hd := jsFloorMul_bounds qDay 28 (by omega) hd0 hd1
  simp only [generateBirthdayYMD, enterNameAndBirthdayYMD]
  refine ⟨⟨?_, ?_⟩, ⟨?_, ?_⟩, ⟨?_, ?_⟩, trivial⟩ <;> omega

/-- Witness for C1 at concrete random draws (all one half): born
currentYear - 29, month 7, day 15. -/
theorem generateBirthday_in_range_witness :
    18 ≤ (2026 : ℤ) - (generateBirthdayYMD 2026 (1/2) (1/2) (1/2)).year ∧
    (generateBirthdayYMD 2026 (1/2) (1/2) (1/2)).month = 7 ∧
    (generateBirthdayYMD 2026 (1/2) (1/2) (1/2)).day = 15 := by
  have h := generateBirthday_in_range 2026 (1/2) (1/2) (1/2)
    (by norm_num) (by norm_num) (by norm_num) (by norm_num) (by norm_num) (by norm_num)
  refine ⟨h.1.1, ?_, ?_⟩ <;>
    simp [generateBirthdayYMD, jsFloorMul] <;> norm_num [Int.floor_eq_iff]

/-! ### OpenAIRegister.waitForPageLoad (register.js lines 165-202)

The in-page loading-indicator evaluation is supplied by the environment
as the outcome of the i-th poll: either the hasLoading boolean or a
thrown error.  The loop itself classifies a thrown error with the
message test of lines 192-193, which checks only two markers -
"Execution context was destroyed" and "navigation" - and lacks the
"Target closed" marker that safeEvaluate also absorbs; a matching error
is absorbed (sleep 1000 and poll again), any other rethrown.  Time is
explicit: `elapsed` mirrors `Date.now() - startTime`, advancing 500 ms
after a hasLoading poll and 1000 ms after an absorbed error; the loop
runs while `elapsed < timeout`.  The fuel argument only forces
structural termination: it starts at `timeout + 1` and cannot run out
before `elapsed` reaches `timeout`, because every iteration adds at
least 500 ms while consuming one unit of fuel. -/

/-- The absorb test of waitForPageLoad lines 192-193: unlike
isNavigationError it checks only two markers (no "Target closed"). -/
def isPageLoadRetryError (e : JsError) : Bool :=
  strContains e.message "Execution context was destroyed" ||
  strContains e.message "navigation"

def waitForPageLoadGo (poll : Nat → Except JsError Bool) (timeout : Nat) : Nat → Nat → Nat → Except JsError Bool
  | 0, _, _ => Except.ok false
  | fuel + 1, i, elapsed =>
    if elapsed < timeout then
      match poll i with
      | Except.ok hasLoading =>
        if hasLoading then waitForPageLoadGo poll timeout fuel (i + 1) (elapsed + 500)
        else Except.ok true
      | Except.error e =>
        if isPageLoadRetryError e then waitForPageLoadGo poll timeout fuel (i + 1) (elapsed + 1000)
        else Except.error e
    else Except.ok false

/-- OpenAIRegister.waitForPageLoad: poll the loading-indicator check
until the page is quiet (true) or the timeout elapses (false),
absorbing only the evaluate errors matched by isPageLoadRetryError and
rethrowing every other one. -/
def waitForPageLoad (poll : Nat → Except JsError Bool) (timeout : Nat) : Except JsError Bool :=
  waitForPageLoadGo poll timeout (timeout + 1) 0 0

/-- Helper: the loop only raises an error that some poll threw and that
fails the lines 192-193 absorb test, and raises nothing when every
thrown poll error passes that test. -/
theorem waitForPageLoadGo_failure_source (poll : Nat → Except JsError Bool) (timeout : Nat) :
    ∀ (fuel i elapsed : Nat),
    (∀ e, waitForPageLoadGo poll timeout fuel i elapsed = Except.error e →
      isPageLoadRetryError e = false ∧ ∃ j, poll j = Except.error e) ∧
    ((∀ j e, poll j = Except.error e → isPageLoadRetryError e = true) →
      ∃ b, waitForPageLoadGo poll timeout fuel i elapsed = Except.ok b) := by
  intro fuel
  induction fuel with
  | zero =>
    intro i elapsed
    exact ⟨by intro e h; simp [waitForPageLoadGo] at h, fun _ => ⟨false, rfl⟩⟩
  | succ f ih =>
    intro i elapsed
    constructor
    · intro e h
      simp only [waitForPageLoadGo] at h
      by_cases ht : elapsed < timeout
      · rw [if_pos ht] at h
        cases hp : poll i with
        | ok hasLoading =>
          rw [hp] at h
          cases hasLoading with
          | true => exact (ih (i + 1) (elapsed + 500)).1 e h
          | false => simp at h
        | error e2 =>
          rw [hp] at h
          by_cases hretry : isPageLoadRetryError e2 = true
          · simp only [hretry, if_true] at h
            exact (ih (i + 1) (elapsed + 1000)).1 e h
          · simp [hretry] at h
            subst h
            exact ⟨by simpa using hretry, i, hp⟩
      · rw [if_neg ht] at h; simp at h
    · intro habsorb
      simp only [waitForPageLoadGo]
      by_cases ht : elapsed < timeout
      · rw [if_pos ht]
        cases hp : poll i with
        | ok hasLoading =>
          cases hasLoading with
          | true => exact (ih (i + 1) (elapsed + 500)).2 habsorb
          | false => exact ⟨true, rfl⟩
        | error e2 =>
          simp only [habsorb i e2 hp, if_true]
          exact (ih (i + 1) (elapsed + 1000)).2 habsorb
      · rw [if_neg ht]; exact ⟨false, rfl⟩

/-- C8 counterexample: an in-page evaluation that throws "Target
closed" - a navigation-class error by the three-marker classification
that safeEvaluate uses - is rethrown by waitForPageLoad instead of
yielding a boolean, because the absorb test of lines 192-193 lacks that
marker; so waitForPageLoad can raise to its caller. -/
theorem waitForPageLoad_raises :
    waitForPageLoad (fun _ => Except.error ⟨"Target closed"⟩) 30000
      = Except.error ⟨"Target closed"⟩ ∧
    isNavigationError ⟨"Target closed"⟩ = true ∧
    isPageLoadRetryError ⟨"Target closed"⟩ = false := by
  exact ⟨rfl, rfl, rfl⟩

/-- C8 amended: waitForPageLoad returns a boolean (true when a poll
finds no loading indicator, false when the timeout elapses) whenever
every thrown poll error matches the two-marker absorb test of lines
192-193 ("Execution context was destroyed" / "navigation"), and those
errors are absorbed; any other thrown error - including the
navigation-class "Target closed" - is rethrown, and a raised error is
always one a poll threw that fails the absorb test. -/
theorem waitForPageLoad_boolean_or_rethrow (poll : Nat → Except JsError Bool) (timeout : Nat) :
    ((∀ j e, poll j = Except.error e → isPageLoadRetryError e = true) →
      ∃ b, waitForPageLoad poll timeout = Except.ok b) ∧
    (∀ e, waitForPageLoad poll timeout = Except.error e →
      isPageLoadRetryError e = false ∧ ∃ j, poll j = Except.error e) := by
  obtain ⟨h1, h2⟩ := waitForPageLoadGo_failure_source poll timeout (timeout + 1) 0 0
  exact ⟨h2, h1⟩

/-- Witness for the amended C8 at a concrete input: an always-loading
page whose evaluations intermittently throw a context-destroyed error
never raises. -/
theorem waitForPageLoad_boolean_or_rethrow_witness :
    ∃ b, waitForPageLoad
      (fun i => if i % 2 = 0 then Except.ok true else Except.error ⟨"Execution context was destroyed"⟩) 5000
      = Except.ok b := by
  refine (waitForPageLoad_boolean_or_rethrow
    (fun i => if i % 2 = 0 then Except.ok true else Except.error ⟨"Execution context was destroyed"⟩) 5000).1 ?_
  intro j e h
  by_cases hj : j % 2 = 0
  · rw [if_pos hj] at h
    exact absurd h (by simp)
  · rw [if_neg hj] at h
    simp only [Except.error.injEq] at h
    subst h
    rfl

/-! ### Sign-in-issue banner check (register.js lines 700-720)

The page is modelled by its body text together with the trimmed-text
candidates of the error elements matched by
`[class*=error], [class*=Error], [role=alert]`. -/

/-- OpenAIRegister.checkForSignInIssue: the body text contains one of
the three banner phrases, or some error element text (trimmed) contains
one of the two shorter markers. -/
def checkForSignInIssue (bodyText : String) (errorTexts : List String) : Bool :=
  strContains bodyText "We ran into an issue" ||
  strContains bodyText "please take a break" ||
  strContains bodyText "try again soon" ||
  errorTexts.any (fun t =>
    strContains (jsTrim t) "We ran into an issue" || strContains (jsTrim t) "try again")

/-! ### Completion check (register.js lines 805-840)

After UsernameEntry the code inspects `page.url()` and, when still on
the auth domain, scans the error elements for the first non-empty
trimmed text. -/

/-- The error-element scan of register.js lines 812-820: the first
error element whose trimmed text is non-empty yields that text,
otherwise null. -/
def scanErrorTexts (errorTexts : List String) : Option String :=
  match errorTexts.find? (fun t => decide (0 < (jsTrim t).length)) with
  | some t => some (jsTrim t)
  | none => none

/-- Classification of the post-UsernameEntry page. -/
inductive CompletionResult where
  | failureWithError (text : String)
  | failureOnAuthNoError
  | success
  | uncertain
deriving DecidableEq, Repr

/-- The completion check of OpenAIRegister.register: auth-domain URL
with an error element, auth-domain URL without one, a target-domain URL,
or the residual warn branch of lines 838-840. -/
def completionCheck (url : String) (errorTexts : List String) : CompletionResult :=
  if strContains url "auth.openai.com" then
    match scanErrorTexts errorTexts with
    | some t => CompletionResult.failureWithError t
    | none => CompletionResult.failureOnAuthNoError
  else if strContains url "sora.com" || strContains url "chat.openai.com" || strContains url "chatgpt.com" then
    CompletionResult.success
  else
    CompletionResult.uncertain

/-- The boolean register returns for each completion classification. -/
def completionToBool : CompletionResult → Bool
  | CompletionResult.success => true
  | _ => false

/-- C5 counterexample: a final URL on neither the auth domain nor any
target domain is classified by a fourth, residual branch (warn and
return failure), so the classification is not the claimed trichotomy. -/
theorem completionCheck_fourth_branch :
    completionCheck "https://www.google.com/" [] = CompletionResult.uncertain ∧
    strContains "https://www.google.com/" "auth.openai.com" = false ∧
    strContains "https://www.google.com/" "sora.com" = false ∧
    strContains "https://www.google.com/" "chat.openai.com" = false ∧
    strContains "https://www.google.com/" "chatgpt.com" = false ∧
    completionToBool CompletionResult.uncertain = false := by
  exact ⟨rfl, rfl, rfl, rfl, rfl, rfl⟩

/-- C5 amended: the completion check distinguishes four cases - (a) URL
on the auth domain with a non-empty error element: failure with the
error text captured; (b) URL on the auth domain without one: failure;
(c) URL containing a target-application domain: success; (d) any other
URL: a residual branch that also returns failure. -/
theorem completionCheck_classification (url : String) (errorTexts : List String) :
    (strContains url "auth.openai.com" = true →
      (∀ t, scanErrorTexts errorTexts = some t →
        completionCheck url errorTexts = CompletionResult.failureWithError t ∧
        completionToBool (completionCheck url errorTexts) = false) ∧
      (scanErrorTexts errorTexts = none →
        completionCheck url errorTexts = CompletionResult.failureOnAuthNoError ∧
        completionToBool (completionCheck url errorTexts) = false)) ∧
    (strContains url "auth.openai.com" = false →
      ((strContains url "sora.com" || strContains url "chat.openai.com" || strContains url "chatgpt.com") = true →
        completionCheck url errorTexts = CompletionResult.success ∧
        completionToBool (completionCheck url errorTexts) = true) ∧
      ((strContains url "sora.com" || strContains url "chat.openai.com" || strContains url "chatgpt.com") = false →
        completionCheck url errorTexts = CompletionResult.uncertain ∧
        completionToBool (completionCheck url errorTexts) = false)) := by
  constructor
  · intro hauth
    constructor
    · intro t hscan
      simp [completionCheck, hauth, hscan, completionToBool]
    · intro hscan
      simp [completionCheck, hauth, hscan, completionToBool]
  · intro hauth
    constructor
    · intro htarget
      simp [completionCheck, hauth, htarget, completionToBool]
    · intro htarget
      simp only [Bool.or_eq_false_iff] at htarget
      simp [completionCheck, hauth, htarget.1, htarget.2, completionToBool]

/-- Witness for the amended C5 at concrete inputs: a sora.com URL is
classified as success. -/
theorem completionCheck_classification_witness :
    completionCheck "https://sora.com/library" [] = CompletionResult.success := by
  exact (((completionCheck_classification "https://sora.com/library" []).2 rfl).1 rfl).1

/-! ### OpenAIRegister.register (register.js lines 725-848)

The registration run drives the stages in order, each wrapped by
`withRetry(fn, label, 3, 2000)`.  The page interactions inside each
stage are supplied by the environment (a SiteModel) as per-attempt
outcomes.  clickSignUp (lines 287-320) swallows every error in its own
catch block and only logs a warning, so its wrapper never observes a
failure; every other stage rethrows.  After ProfileEntry the run sleeps,
runs checkForSignInIssue on the page state, and throws the abort message
when the banner is present - before UsernameEntry is ever attempted. -/

/-- Named stages of a registration run, recorded in execution order. -/
inductive Stage where
  | loginEntry
  | signupEntry
  | emailEntry
  | passwordEntry
  | awaitCode
  | codeEntry
  | profileEntry
  | issueCheck
  | usernameEntry
  | completionStage
deriving DecidableEq, Repr

/-- The environment a registration run interacts with: per-attempt
outcomes of each page-interaction stage and the page states inspected
after ProfileEntry and after UsernameEntry. -/
structure SiteModel where
  loginAttempt : Nat → Except String Unit
  signupAttempt : Nat → Except String Unit
  emailAttempt : Nat → Except String Unit
  passwordAttempt : Nat → Except String Unit
  codeProvider : Except String String
  codeAttempt : String → Nat → Except String Unit
  profileAttempt : Nat → Except String Unit
  postProfileBodyText : String
  postProfileErrorTexts : List String
  usernameAttempt : Nat → Except String Unit
  finalUrl : String
  finalErrorTexts : List String

/-- clickSignUp as seen by its withRetry wrapper: its catch block
swallows any error (logs a warning) and the stage returns normally. -/
def clickSignUpStage (attempt : Nat → Except String Unit) (i : Nat) : Except String Unit :=
  match attempt i with
  | Except.ok _ => Except.ok ()
  | Except.error _ => Except.ok ()

/-- The error thrown by register when the sign-in-issue banner is
detected (register.js line 783). -/
def signInIssueMessage : String :=
  "We ran into an issue while signing you in, please take a break and try again soon."

/-- How a register run ends: an exception propagated out of register, or
the boolean of the completion check. -/
inductive RunResult where
  | failed (e : Option String)
  | completed (success : Bool)
deriving DecidableEq, Repr

/-- OpenAIRegister.register: the stage sequence with per-stage withRetry
(3 attempts), the sign-in-issue inspection after ProfileEntry, and the
final completion check; returns the outcome and the stages reached, in
order. -/
def registerRun (s : SiteModel) : RunResult × List Stage :=
  match (withRetry s.loginAttempt 3).1 with
  | Except.error e => (RunResult.failed e, [Stage.loginEntry])
  | Except.ok _ =>
  match (withRetry (clickSignUpStage s.signupAttempt) 3).1 with
  | Except.error e => (RunResult.failed e, [Stage.loginEntry, Stage.signupEntry])
  | Except.ok _ =>
  match (withRetry s.emailAttempt 3).1 with
  | Except.error e => (RunResult.failed e, [Stage.loginEntry, Stage.signupEntry, Stage.emailEntry])
  | Except.ok _ =>
  match (withRetry s.passwordAttempt 3).1 with
  | Except.error e => (RunResult.failed e,
      [Stage.loginEntry, Stage.signupEntry, Stage.emailEntry, Stage.passwordEntry])
  | Except.ok _ =>
  match s.codeProvider with
  | Except.error e => (RunResult.failed (some e),
      [Stage.loginEntry, Stage.signupEntry, Stage.emailEntry, Stage.passwordEntry, Stage.awaitCode])
  | Except.ok code =>
  match (withRetry (s.codeAttempt code) 3).1 with
  | Except.error e => (RunResult.failed e,
      [Stage.loginEntry, Stage.signupEntry, Stage.emailEntry, Stage.passwordEntry, Stage.awaitCode,
       Stage.codeEntry])
  | Except.ok _ =>
  match (withRetry s.profileAttempt 3).1 with
  | Except.error e => (RunResult.failed e,
      [Stage.loginEntry, Stage.signupEntry, Stage.emailEntry, Stage.passwordEntry, Stage.awaitCode,
       Stage.codeEntry, Stage.profileEntry])
  | Except.ok _ =>
  if checkForSignInIssue s.postProfileBodyText s.postProfileErrorTexts then
    (RunResult.failed (some signInIssueMessage),
      [Stage.loginEntry, Stage.signupEntry, Stage.emailEntry, Stage.passwordEntry, Stage.awaitCode,
       Stage.codeEntry, Stage.profileEntry, Stage.issueCheck])
  else
  match (withRetry s.usernameAttempt 3).1 with
  | Except.error e => (RunResult.failed e,
      [Stage.loginEntry, Stage.signupEntry, Stage.emailEntry, Stage.passwordEntry, Stage.awaitCode,
       Stage.codeEntry, Stage.profileEntry, Stage.issueCheck, Stage.usernameEntry])
  | Except.ok _ =>
  (RunResult.completed (completionToBool (completionCheck s.finalUrl s.finalErrorTexts)),
      [Stage.loginEntry, Stage.signupEntry, Stage.emailEntry, Stage.passwordEntry, Stage.awaitCode,
       Stage.codeEntry, Stage.profileEntry, Stage.issueCheck, Stage.usernameEntry, Stage.completionStage])

/-- C6: whenever the post-ProfileEntry banner inspection would detect
the issue banner on the page state, the run ends in a raised error and
the UsernameEntry stage is never executed; if moreover every earlier
stage succeeded, the raised error is exactly the sign-in-issue message. -/
theorem registerRun_abort_skips_username (s : SiteModel)
    (hissue : checkForSignInIssue s.postProfileBodyText s.postProfileErrorTexts = true) :
    (∃ e, (registerRun s).1 = RunResult.failed e) ∧
    Stage.usernameEntry ∉ (registerRun s).2 := by
  unfold registerRun
  rcases h1 : (withRetry s.loginAttempt 3).1 with e | u1
  · refine ⟨⟨e, ?_⟩, ?_⟩ <;> simp
  rcases h2 : (withRetry (clickSignUpStage s.signupAttempt) 3).1 with e | u2
  · refine ⟨⟨e, ?_⟩, ?_⟩ <;> simp
  rcases h3 : (withRetry s.emailAttempt 3).1 with e | u3
  · refine ⟨⟨e, ?_⟩, ?_⟩ <;> simp
  rcases h4 : (withRetry s.passwordAttempt 3).1 with e | u4
  · refine ⟨⟨e, ?_⟩, ?_⟩ <;> simp
  rcases h5 : s.codeProvider with e | code
  · refine ⟨⟨some e, ?_⟩, ?_⟩ <;> simp
  rcases h6 : (withRetry (s.codeAttempt code) 3).1 with e | u6
  · refine ⟨⟨e, ?_⟩, ?_⟩ <;> simp [h6]
  rcases h7 : (withRetry s.profileAttempt 3).1 with e | u7
  · refine ⟨⟨e, ?_⟩, ?_⟩ <;> simp [h6, h7]
  refine ⟨⟨some signInIssueMessage, ?_⟩, ?_⟩ <;> simp [h6, h7, hissue]

/-- Witness for C6 at a concrete site: all stages accept their input,
but the post-ProfileEntry page shows the abort banner; the run fails
and never reaches UsernameEntry. -/
theorem registerRun_abort_skips_username_witness :
    (∃ e, (registerRun
      { loginAttempt := fun _ => Except.ok ()
        signupAttempt := fun _ => Except.ok ()
        emailAttempt := fun _ => Except.ok ()
        passwordAttempt := fun _ => Except.ok ()
        codeProvider := Except.ok "123456"
        codeAttempt := fun _ _ => Except.ok ()
        profileAttempt := fun _ => Except.ok ()
        postProfileBodyText := "We ran into an issue while signing you in"
        postProfileErrorTexts := []
        usernameAttempt := fun _ => Except.ok ()
        finalUrl := "https://sora.com/"
        finalErrorTexts := [] }).1 = RunResult.failed e) ∧
    Stage.usernameEntry ∉ (registerRun
      { loginAttempt := fun _ => Except.ok ()
        signupAttempt := fun _ => Except.ok ()
        emailAttempt := fun _ => Except.ok ()
        passwordAttempt := fun _ => Except.ok ()
        codeProvider := Except.ok "123456"
        codeAttempt := fun _ _ => Except.ok ()
        profileAttempt := fun _ => Except.ok ()
        postProfileBodyText := "We ran into an issue while signing you in"
        postProfileErrorTexts := []
        usernameAttempt := fun _ => Except.ok ()
        finalUrl := "https://sora.com/"
        finalErrorTexts := [] }).2 := by
  exact registerRun_abort_skips_username _ (by rfl)

/-! ### TempMailService.getEmailAddress (tempmail.js lines 109-146)

The in-page query sees the page as the list of input element values and
the body text.  The two regexes are translated exactly:
the anchored per-input test matches iff the whole trimmed value
decomposes as local-part, at-sign, domain, dot, and a 2+-letter label
(regex backtracking finds a match iff such a decomposition exists); the
global body-text scan reproduces the leftmost-greedy JS semantics, with
the matched substring consumed before scanning resumes. -/

/-- Characters of the local-part class [a-zA-Z0-9._%+-]. -/
def isLocalChar (c : Char) : Bool :=
  c.isAlpha || c.isDigit || c = '.' || c = '_' || c = '%' || c = '+' || c = '-'

/-- Characters of the domain class [a-zA-Z0-9.-]. -/
def isDomainChar (c : Char) : Bool :=
  c.isAlpha || c.isDigit || c = '.' || c = '-'

/-- Does a character list decompose as domain, dot, 2+-letter label,
with nothing left over (the anchored tail [a-zA-Z0-9.-]+\.[a-zA-Z]{2,}$)? -/
def domainTailAnchored (d : List Char) : Bool :=
  (List.range d.length).any (fun k =>
    decide (1 ≤ k) && decide (d.getD k ' ' = '.') && (d.take k).all isDomainChar &&
    decide (2 ≤ (d.drop (k + 1)).length) && (d.drop (k + 1)).all Char.isAlpha)

/-- The anchored email regex
^[a-zA-Z0-9._%+-]+@[a-zA-Z0-9.-]+\.[a-zA-Z]{2,}$ of tempmail.js
line 115, as a whole-string test. -/
def anchoredEmail (s : String) : Bool :=
  let cs := s.toList
  (List.range cs.length).any (fun i =>
    decide (1 ≤ i) && decide (cs.getD i ' ' = '@') && (cs.take i).all isLocalChar &&
    domainTailAnchored (cs.drop (i + 1)))

/-- Greedy backtracking split of a maximal domain-character run: the
largest k with a dot at position k followed by at least two letters;
returns the domain part before the dot and the maximal letter run after
it. -/
def greedyDotSplit (dom : List Char) : Option (List Char × List Char) :=
  match (List.range dom.length).reverse.find? (fun k =>
      decide (1 ≤ k) && decide (dom.getD k ' ' = '.') &&
      decide (2 ≤ ((dom.drop (k + 1)).takeWhile Char.isAlpha).length)) with
  | some k => some (dom.take k, (dom.drop (k + 1)).takeWhile Char.isAlpha)
  | none => none

/-- Match the unanchored email regex at the head of the list; on success
return the matched substring and the number of characters it consumed. -/
def emailMatchAt (cs : List Char) : Option (String × Nat) :=
  let loc := cs.takeWhile isLocalChar
  if loc.isEmpty then none
  else
    match cs.drop loc.length with
    | '@' :: rest =>
      let dom := rest.takeWhile isDomainChar
      match greedyDotSplit dom with
      | some (m, t) =>
        some (String.mk (loc ++ '@' :: m ++ '.' :: t),
              loc.length + 1 + m.length + 1 + t.length)
      | none => none
    | _ => none

def emailScanAux : Nat → List Char → List String
  | 0, _ => []
  | _ + 1, [] => []
  | fuel + 1, c :: rest =>
    match emailMatchAt (c :: rest) with
    | some (m, n) => m :: emailScanAux fuel ((c :: rest).drop (max n 1))
    | none => emailScanAux fuel rest

/-- All matches of the global email regex on the body text, in order
(bodyText.match(emailRegex) with the g flag).  The fuel starts at the
text length and cannot run out, since every step consumes at least one
character. -/
def emailMatches (bodyText : String) : List String :=
  emailScanAux bodyText.toList.length bodyText.toList

/-- The per-input test of tempmail.js lines 112-118: the raw value
contains an at-sign and a dot, and the trimmed value passes the anchored
regex. -/
def inputQualifies (v : String) : Bool :=
  v.toList.contains '@' && v.toList.contains '.' && anchoredEmail (jsTrim v)

/-- The placeholder filter of lines 126-131: keep an address only if it
contains neither marker. -/
def notPlaceholder (e : String) : Bool :=
  !(strContains e "example") && !(strContains e "test@")

/-- The in-page address-resolution logic of getEmailAddress: first input
whose value is email-shaped (returned trimmed), else the first
non-placeholder body-text match, else the first body-text match, else
null. -/
def getEmailFromPage (inputValues : List String) (bodyText : String) : Option String :=
  match inputValues.find? inputQualifies with
  | some v => some (jsTrim v)
  | none =>
    match emailMatches bodyText with
    | [] => none
    | m0 :: ms =>
      match (m0 :: ms).find? notPlaceholder with
      | some e => some e
      | none => some m0

/-- Failure mode of the inbox bridge address acquisition. -/
inductive TempMailFailure where
  | addressNotFound
deriving DecidableEq, Repr

/-- TempMailService.getEmailAddress: return the resolved address, or
throw when the page yielded none (tempmail.js line 145). -/
def getEmailAddress (inputValues : List String) (bodyText : String) : Except TempMailFailure String :=
  match getEmailFromPage inputValues bodyText with
  | some e => Except.ok e
  | none => Except.error TempMailFailure.addressNotFound

/-- C7 counterexample: a page whose only email-shaped token matches the
placeholder pattern (it contains a test@ marker) is still returned as
the acquired address - the fallback returns matches[0] instead of
failing - contradicting the claim that the scan only ever returns a
non-placeholder token or fails. -/
theorem getEmailAddress_returns_placeholder :
    getEmailAddress [] "reach me at test@foo.com ok" = Except.ok "test@foo.com" ∧
    notPlaceholder "test@foo.com" = false ∧
    emailMatches "reach me at test@foo.com ok" = ["test@foo.com"] := by
  exact ⟨rfl, rfl, rfl⟩

/-- C7 amended: getEmailAddress returns the first email-shaped input
value (trimmed) when one exists; otherwise the first non-placeholder
body-text match when one exists; otherwise the first body-text match
even when every match is a placeholder; and it fails with
address-not-found exactly when no input qualifies and the body text has
no email-shaped token at all. -/
theorem getEmailAddress_resolution (inputValues : List String) (bodyText : String) :
    (getEmailAddress inputValues bodyText = Except.error TempMailFailure.addressNotFound ↔
      inputValues.find? inputQualifies = none ∧ emailMatches bodyText = []) ∧
    (∀ v, inputValues.find? inputQualifies = some v →
      getEmailAddress inputValues bodyText = Except.ok (jsTrim v)) ∧
    (∀ e, inputValues.find? inputQualifies = none →
      (emailMatches bodyText).find? notPlaceholder = some e →
      getEmailAddress inputValues bodyText = Except.ok e) ∧
    (∀ m0 ms, inputValues.find? inputQualifies = none →
      emailMatches bodyText = m0 :: ms →
      (emailMatches bodyText).find? notPlaceholder = none →
      getEmailAddress inputValues bodyText = Except.ok m0) := by
  refine ⟨?_, ?_, ?_, ?_⟩
  · constructor
    · intro h
      unfold getEmailAddress getEmailFromPage at h
      rcases hin : inputValues.find? inputQualifies with _ | v
      · rw [hin] at h
        rcases hm : emailMatches bodyText with _ | ⟨m0, ms⟩
        · exact ⟨rfl, rfl⟩
        · rw [hm] at h
          rcases hnp : (m0 :: ms).find? notPlaceholder with _ | e <;>
            simp [hnp] at h
      · rw [hin] at h
        simp at h
    · rintro ⟨hin, hm⟩
      unfold getEmailAddress getEmailFromPage
      rw [hin, hm]
  · intro v hin
    unfold getEmailAddress getEmailFromPage
    rw [hin]
  · intro e hin hnp
    rcases hm : emailMatches bodyText with _ | ⟨m0, ms⟩
    · rw [hm] at hnp; simp at hnp
    · rw [hm] at hnp
      unfold getEmailAddress getEmailFromPage
      rw [hin, hm]
      simp [hnp]
  · intro m0 ms hin hm hnp
    rw [hm] at hnp
    unfold getEmailAddress getEmailFromPage
    rw [hin, hm]
    simp [hnp]

/-- Witness for the amended C7 at concrete inputs: an empty page fails
with address-not-found, and an input with a real address is returned. -/
theorem getEmailAddress_resolution_witness :
    getEmailAddress [] "no address here" = Except.error TempMailFailure.addressNotFound ∧
    getEmailAddress ["alice99@mailhost.net"] "" = Except.ok "alice99@mailhost.net" := by
  constructor
  · exact (getEmailAddress_resolution [] "no address here").1.mpr ⟨rfl, rfl⟩
  · exact (getEmailAddress_resolution ["alice99@mailhost.net"] "").2.1 "alice99@mailhost.net" (by decide)

/-! ### TempMailService.extractVerificationCode (tempmail.js lines 381-406)

The seven regex patterns share two shapes: a literal (optionally
case-insensitive) followed by a colon-or-whitespace run ([:\s]+ or
[:\s]*) and six captured digits, and the bare \b(\d{6})\b.  In both
shapes the character classes before the digits cannot overlap with a
digit, so greedy matching with backtracking reduces to: take the maximal
colon/whitespace run, then require six digit characters.  Scanning is
leftmost: positions are tried in order and the first position where the
pattern matches yields the capture. -/

/-- The regex class [:\s]. -/
def isColonSpace (c : Char) : Bool :=
  c = ':' || isJsSpace c

/-- Does the literal match at the head of the list (lowercasing the text
first when the pattern is case-insensitive; literals are stored
lowercase)? -/
def litMatchesAt (cs lit : List Char) (ci : Bool) : Bool :=
  if ci then decide ((cs.take lit.length).map Char.toLower = lit)
  else decide (cs.take lit.length = lit)

/-- Match one literal-then-digits pattern at the head of the list:
the literal, a [:\s] run (non-empty when needOne), then exactly six
digit characters, which are the capture. -/
def matchLitCodeAt (cs lit : List Char) (ci needOne : Bool) : Option String :=
  if litMatchesAt cs lit ci then
    let wsLen := ((cs.drop lit.length).takeWhile isColonSpace).length
    if needOne && decide (wsLen = 0) then none
    else
      let ds := (cs.drop (lit.length + wsLen)).take 6
      if decide (ds.length = 6) && ds.all Char.isDigit then some (String.mk ds) else none
  else none

/-- Leftmost scan of a literal-then-digits pattern over the text. -/
def scanLitCode (lit : List Char) (ci needOne : Bool) : List Char → Option String
  | [] => matchLitCodeAt [] lit ci needOne
  | c :: rest =>
    match matchLitCodeAt (c :: rest) lit ci needOne with
    | some code => some code
    | none => scanLitCode lit ci needOne rest

/-- The regex word class [A-Za-z0-9_], for \b boundaries. -/
def isWordChar (c : Char) : Bool :=
  c.isAlpha || c.isDigit || c = '_'

/-- Match \b(\d{6})\b at the head of the list, given the character just
before this position (none at the start of the text). -/
def matchBareCodeAt (prev : Option Char) (cs : List Char) : Option String :=
  let boundaryBefore := match prev with | none => true | some p => !isWordChar p
  let ds := cs.take 6
  let boundaryAfter := match cs.drop 6 with | [] => true | a :: _ => !isWordChar a
  if boundaryBefore && decide (ds.length = 6) && ds.all Char.isDigit && boundaryAfter then
    some (String.mk ds)
  else none

/-- Leftmost scan of \b(\d{6})\b over the text. -/
def scanBareCode : Option Char → List Char → Option String
  | _, [] => none
  | prev, c :: rest =>
    match matchBareCodeAt prev (c :: rest) with
    | some code => some code
    | none => scanBareCode (some c) rest

/-- Pattern 1: verification code[:\s]+(\d{6}), case-insensitive. -/
def patVerificationCode (body : String) : Option String :=
  scanLitCode "verification code".toList true true body.toList

/-- Pattern 2: verify[:\s]+(\d{6}), case-insensitive. -/
def patVerify (body : String) : Option String :=
  scanLitCode "verify".toList true true body.toList

/-- Pattern 3: code[:\s]+(\d{6}), case-insensitive. -/
def patCode (body : String) : Option String :=
  scanLitCode "code".toList true true body.toList

/-- Pattern 4: the CJK verification-code literal then [:\s]*(\d{6}). -/
def patCodeCn (body : String) : Option String :=
  scanLitCode "验证码".toList false false body.toList

/-- Pattern 5: Your code is[:\s]*(\d{6}), case-insensitive. -/
def patYourCode (body : String) : Option String :=
  scanLitCode "your code is".toList true false body.toList

/-- Pattern 6: Enter this code[:\s]*(\d{6}), case-insensitive. -/
def patEnterCode (body : String) : Option String :=
  scanLitCode "enter this code".toList true false body.toList

/-- Pattern 7: the bare \b(\d{6})\b fallback. -/
def patBare (body : String) : Option String :=
  scanBareCode none body.toList

/-- The ordered pattern list of tempmail.js lines 387-395. -/
def codePatterns : List (String → Option String) :=
  [patVerificationCode, patVerify, patCode, patCodeCn, patYourCode, patEnterCode, patBare]

/-- First pattern that matches wins (the for-loop over codePatterns). -/
def firstPatternMatch : List (String → Option String) → String → Option String
  | [], _ => none
  | p :: ps, body =>
    match p body with
    | some code => some code
    | none => firstPatternMatch ps body

/-- TempMailService.extractVerificationCode: try the seven patterns in
order on the body text and return the first capture, or null. -/
def extractVerificationCode (body : String) : Option String :=
  firstPatternMatch codePatterns body

/-- Does the text contain six consecutive digit characters anywhere? -/
def hasSixDigitRun : List Char → Bool
  | [] => false
  | c :: rest =>
    (decide (((c :: rest).take 6).length = 6) && ((c :: rest).take 6).all Char.isDigit) ||
    hasSixDigitRun rest

/-- Helper: a six-digit prefix of any suffix witnesses a six-digit run. -/
theorem hasSixDigitRun_of_drop (cs : List Char) :
    ∀ k, (decide (((cs.drop k).take 6).length = 6) && ((cs.drop k).take 6).all Char.isDigit) = true →
    hasSixDigitRun cs = true := by
  induction cs with
  | nil =>
    intro k h
    simp at h
  | cons c rest ih =>
    intro k h
    cases k with
    | zero =>
      simp only [List.drop_zero] at h
      unfold hasSixDigitRun
      rw [h]
      simp
    | succ k =>
      simp only [List.drop_succ_cons] at h
      unfold hasSixDigitRun
      rw [ih k h]
      simp

/-- Helper: a literal-then-digits match needs six consecutive digits. -/
theorem matchLitCodeAt_needs_digits (cs lit : List Char) (ci needOne : Bool) (code : String) :
    matchLitCodeAt cs lit ci needOne = some code → hasSixDigitRun cs = true := by
  intro h
  simp only [matchLitCodeAt] at h
  split at h
  · split at h
    · exact absurd h (by simp)
    · split at h
      · rename_i hds
        exact hasSixDigitRun_of_drop cs _ hds
      · exact absurd h (by simp)
  · exact absurd h (by simp)

/-- Helper: a successful literal-pattern scan needs six consecutive
digits somewhere in the text. -/
theorem scanLitCode_needs_digits (lit : List Char) (ci needOne : Bool) :
    ∀ (cs : List Char) (code : String), scanLitCode lit ci needOne cs = some code →
    hasSixDigitRun cs = true := by
  intro cs
  induction cs with
  | nil =>
    intro code h
    unfold scanLitCode at h
    exact matchLitCodeAt_needs_digits [] lit ci needOne code h
  | cons c rest ih =>
    intro code h
    unfold scanLitCode at h
    rcases hm : matchLitCodeAt (c :: rest) lit ci needOne with _ | m
    · rw [hm] at h
      have := ih code h
      unfold hasSixDigitRun
      rw [this]
      simp
    · rw [hm] at h
      exact matchLitCodeAt_needs_digits (c :: rest) lit ci needOne m hm

/-- Helper: a bare match needs six consecutive digits. -/
theorem matchBareCodeAt_needs_digits (prev : Option Char) (cs : List Char) (code : String) :
    matchBareCodeAt prev cs = some code → hasSixDigitRun cs = true := by
  intro h
  simp only [matchBareCodeAt] at h
  split at h
  · rename_i hcond
    simp only [Bool.and_eq_true] at hcond
    obtain ⟨⟨⟨_, hlen⟩, hdig⟩, _⟩ := hcond
    cases cs with
    | nil => simp at hlen
    | cons c rest =>
      unfold hasSixDigitRun
      rw [hlen, hdig]
      simp
  · exact absurd h (by simp)

/-- Helper: a successful bare scan needs six consecutive digits. -/
theorem scanBareCode_needs_digits :
    ∀ (cs : List Char) (prev : Option Char) (code : String),
    scanBareCode prev cs = some code → hasSixDigitRun cs = true := by
  intro cs
  induction cs with
  | nil =>
    intro prev code h
    simp [scanBareCode] at h
  | cons c rest ih =>
    intro prev code h
    unfold scanBareCode at h
    rcases hm : matchBareCodeAt prev (c :: rest) with _ | m
    · rw [hm] at h
      have := ih (some c) code h
      unfold hasSixDigitRun
      rw [this]
      simp
    · rw [hm] at h
      exact matchBareCodeAt_needs_digits prev (c :: rest) m hm

/-- Helper: the ordered scan returns the k-th pattern result when all
earlier patterns miss. -/
theorem firstPatternMatch_of_earlier_none :
    ∀ (ps : List (String → Option String)) (body : String) (k : Nat) (code : String),
    (∀ i, i < k → ps.getD i (fun _ => none) body = none) →
    ps.getD k (fun _ => none) body = some code →
    firstPatternMatch ps body = some code := by
  intro ps
  induction ps with
  | nil =>
    intro body k code _ hk
    simp at hk
  | cons p ps ih =>
    intro body k code hearlier hk
    cases k with
    | zero =>
      simp only [List.getD_cons_zero] at hk
      simp [firstPatternMatch, hk]
    | succ k =>
      have h0 : p body = none := by
        have := hearlier 0 (by omega)
        simpa using this
      simp only [List.getD_cons_succ] at hk
      have := ih body k code
        (by intro i hi
            have := hearlier (i + 1) (by omega)
            simpa using this) hk
      simp [firstPatternMatch, h0, this]

/-- Helper: a successful ordered scan comes from some pattern in the
list. -/
theorem firstPatternMatch_mem :
    ∀ (ps : List (String → Option String)) (body : String) (code : String),
    firstPatternMatch ps body = some code → ∃ p, p ∈ ps ∧ p body = some code := by
  intro ps
  induction ps with
  | nil =>
    intro body code h
    simp [firstPatternMatch] at h
  | cons p ps ih =>
    intro body code h
    unfold firstPatternMatch at h
    rcases hp : p body with _ | m
    · rw [hp] at h
      obtain ⟨q, hq, hqc⟩ := ih body code h
      exact ⟨q, List.mem_cons_of_mem p hq, hqc⟩
    · rw [hp] at h
      refine ⟨p, List.mem_cons_self p ps, ?_⟩
      rw [hp]
      exact h

/-- C9: extraction returns the captured digits for the sample body; a
body with no six consecutive digits yields no match (null, not an empty
string and not an exception, the function being total into Option); and
the patterns are tried in their list order with the first match
winning. -/
theorem extractVerificationCode_spec :
    extractVerificationCode "Your code is 482913" = some "482913" ∧
    (∀ body : String, hasSixDigitRun body.toList = false →
      extractVerificationCode body = none) ∧
    (∀ (body : String) (k : Nat) (code : String),
      (∀ i, i < k → codePatterns.getD i (fun _ => none) body = none) →
      codePatterns.getD k (fun _ => none) body = some code →
      extractVerificationCode body = some code) := by
  refine ⟨rfl, ?_, ?_⟩
  · intro body hno
    rcases hres : extractVerificationCode body with _ | code
    · rfl
    · exfalso
      have hdig : hasSixDigitRun body.toList = true := by
        obtain ⟨p, hmem, hpc⟩ := firstPatternMatch_mem codePatterns body code hres
        simp only [codePatterns, List.mem_cons, List.not_mem_nil, or_false] at hmem
        rcases hmem with rfl | rfl | rfl | rfl | rfl | rfl | rfl
        · exact scanLitCode_needs_digits _ _ _ body.toList code hpc
        · exact scanLitCode_needs_digits _ _ _ body.toList code hpc
        · exact scanLitCode_needs_digits _ _ _ body.toList code hpc
        · exact scanLitCode_needs_digits _ _ _ body.toList code hpc
        · exact scanLitCode_needs_digits _ _ _ body.toList code hpc
        · exact scanLitCode_needs_digits _ _ _ body.toList code hpc
        · exact scanBareCode_needs_digits body.toList none code hpc
      rw [hno] at hdig
      exact Bool.false_ne_true hdig
  · intro body k code hearlier hk
    exact firstPatternMatch_of_earlier_none codePatterns body k code hearlier hk

/-- Witness for C9 at concrete inputs: a body without six consecutive
digits yields no match, and the third pattern wins on a body the first
two miss. -/
theorem extractVerificationCode_spec_witness :
    extractVerificationCode "hello there" = none ∧
    extractVerificationCode "code: 271828" = some "271828" := by
  constructor
  · exact extractVerificationCode_spec.2.1 "hello there" (by rfl)
  · exact extractVerificationCode_spec.2.2 "code: 271828" 2 "271828"
      (by intro i hi
          interval_cases i <;> rfl)
      (by rfl)

/-! ### OpenAIRegister.sessionToAccessToken (register.js lines 1042-1154)

The whole body after the null-token guard sits inside one try/catch
whose catch returns the all-null object.  The environment supplies the
outcome of every external step: the in-page fetch evaluation (which may
itself throw, or report a fetch error object, or deliver session data),
the cookie write, the fallback navigation (throwing, missing response,
or a response with its ok flag), the rendered page content, the body
text, and JSON.parse (a JS builtin, modelled as an environment function
that may throw).  The pre-block regex of line 1100 is translated
directly.  Session data is the triple of optional accessToken, user and
expires fields read from the parsed JSON. -/

/-- Structured data parsed from the session endpoint. -/
structure SessionData where
  accessToken : Option String
  user : Option String
  expires : Option String
deriving DecidableEq, Repr

/-- The object sessionToAccessToken resolves with. -/
structure AccessTokenResult where
  accessToken : Option String
  user : Option String
  expires : Option String
deriving DecidableEq, Repr

/-- The all-null total-failure object. -/
def allNullTokens : AccessTokenResult :=
  { accessToken := none, user := none, expires := none }

/-- JS truthiness of an optional string (absent and empty are falsy). -/
def jsStrTruthy : Option String → Bool
  | none => false
  | some s => decide (s ≠ "")

/-- JS (value or null) for an optional string field. -/
def jsOrNull (o : Option String) : Option String :=
  if jsStrTruthy o then o else none

/-- The success object built from parsed data (accessToken plus
best-effort user and expiry metadata, as in lines 1107-1111, 1121-1125
and 1141-1145). -/
def successTokens (d : SessionData) : AccessTokenResult :=
  { accessToken := d.accessToken, user := d.user, expires := jsOrNull d.expires }

/-- Environment of one sessionToAccessToken call. -/
structure TokenHarvestEnv where
  fetchEval : Except JsError (Except String SessionData)
  setCookie : Except JsError Unit
  gotoResp : Except JsError (Option Bool)
  pageContent : Except JsError String
  bodyText : Except JsError String
  jsonParse : String → Except JsError SessionData

/-- Split a character list at the first occurrence of the pattern,
returning the part before it and the part after it. -/
def splitFirst (pat : List Char) : List Char → Option (List Char × List Char)
  | [] => if pat.isPrefixOf ([] : List Char) then some ([], []) else none
  | c :: rest =>
    if pat.isPrefixOf (c :: rest) then some ([], (c :: rest).drop pat.length)
    else
      match splitFirst pat rest with
      | some (pre, post) => some (c :: pre, post)
      | none => none

/-- The pre-block regex of register.js line 1100: after the first
pre-tag opener, skip to the first closing angle bracket, then capture
lazily up to the first pre-tag closer. -/
def extractPreBlock (html : String) : Option String :=
  match splitFirst "<pre".toList html.toList with
  | none => none
  | some (_, afterPre) =>
    match splitFirst ">".toList afterPre with
    | none => none
    | some (_, afterGt) =>
      match splitFirst "</pre>".toList afterGt with
      | none => none
      | some (captured, _) => some (String.mk captured)

/-- The text-parse fallback of lines 1115-1129 followed by the
all-null return of line 1133: read the body text, try JSON.parse inside
its own try/catch (a parse failure is swallowed), and return the access
token when present, otherwise all nulls. -/
def sessionTextFallback (env : TokenHarvestEnv) : Except JsError AccessTokenResult :=
  match env.bodyText with
  | Except.error e => Except.error e
  | Except.ok text =>
    match env.jsonParse text with
    | Except.error _ => Except.ok allNullTokens
    | Except.ok d =>
      if jsStrTruthy d.accessToken then Except.ok (successTokens d)
      else Except.ok allNullTokens

/-- The navigation fallback of lines 1079-1133: set the session cookie,
navigate to the session endpoint, and when a response arrived with its
ok flag set, parse the rendered content - first the pre-block as JSON
(a parse failure here propagates to the outer catch), then the bare body
text; every unsuccessful avenue ends in the all-null return. -/
def sessionNavFallback (env : TokenHarvestEnv) : Except JsError AccessTokenResult :=
  match env.setCookie with
  | Except.error e => Except.error e
  | Except.ok _ =>
    match env.gotoResp with
    | Except.error e => Except.error e
    | Except.ok resp =>
      if resp = some true then
        match env.pageContent with
        | Except.error e => Except.error e
        | Except.ok html =>
          match extractPreBlock html with
          | some jsonStr =>
            match env.jsonParse jsonStr with
            | Except.error e => Except.error e
            | Except.ok d =>
              if jsStrTruthy d.accessToken then Except.ok (successTokens d)
              else sessionTextFallback env
          | none => sessionTextFallback env
      else Except.ok allNullTokens

/-- The try-block of sessionToAccessToken: the in-page fetch, then
either the direct result handling of lines 1137-1149 or the navigation
fallback when the fetch reported an error. -/
def sessionToAccessTokenBody (env : TokenHarvestEnv) : Except JsError AccessTokenResult :=
  match env.fetchEval with
  | Except.error e => Except.error e
  | Except.ok (Except.error _) => sessionNavFallback env
  | Except.ok (Except.ok d) =>
    if jsStrTruthy d.accessToken then Except.ok (successTokens d)
    else Except.ok { accessToken := none, user := d.user, expires := none }

/-- OpenAIRegister.sessionToAccessToken: the null-token guard of lines
1045-1048, then the try/catch whose catch converts any raised error into
the all-null object. -/
def sessionToAccessToken (st : Option String) (env : TokenHarvestEnv) : AccessTokenResult :=
  if jsStrTruthy st = false then allNullTokens
  else
    match sessionToAccessTokenBody env with
    | Except.error _ => allNullTokens
    | Except.ok r => r

/-- Helper: every successful result of the text-parse fallback carries
either no access token or a truthy one. -/
theorem sessionTextFallback_shape (env : TokenHarvestEnv) :
    ∀ r, sessionTextFallback env = Except.ok r →
    r.accessToken = none ∨ jsStrTruthy r.accessToken = true := by
  intro r h
  unfold sessionTextFallback at h
  split at h
  · exact absurd h (by simp)
  · split at h
    · simp only [Except.ok.injEq] at h
      subst h
      left; rfl
    · split at h
      · simp only [Except.ok.injEq] at h
        subst h
        right
        rename_i hda
        exact hda
      · simp only [Except.ok.injEq] at h
        subst h
        left; rfl

/-- Helper: every successful result of the navigation fallback carries
either no access token or a truthy one. -/
theorem sessionNavFallback_shape (env : TokenHarvestEnv) :
    ∀ r, sessionNavFallback env = Except.ok r →
    r.accessToken = none ∨ jsStrTruthy r.accessToken = true := by
  intro r h
  unfold sessionNavFallback at h
  split at h
  · exact absurd h (by simp)
  · split at h
    · exact absurd h (by simp)
    · split at h
      · split at h
        · exact absurd h (by simp)
        · split at h
          · split at h
            · exact absurd h (by simp)
            · split at h
              · simp only [Except.ok.injEq] at h
                subst h
                right
                rename_i hda
                exact hda
              · exact sessionTextFallback_shape env r h
          · exact sessionTextFallback_shape env r h
      · simp only [Except.ok.injEq] at h
        subst h
        left; rfl

/-- Helper: every successful result of the try-block carries either no
access token or a truthy one. -/
theorem sessionToAccessTokenBody_shape (env : TokenHarvestEnv) :
    ∀ r, sessionToAccessTokenBody env = Except.ok r →
    r.accessToken = none ∨ jsStrTruthy r.accessToken = true := by
  intro r h
  unfold sessionToAccessTokenBody at h
  split at h
  · exact absurd h (by simp)
  · exact sessionNavFallback_shape env r h
  · split at h
    · simp only [Except.ok.injEq] at h
      subst h
      right
      rename_i hda
      exact hda
    · simp only [Except.ok.injEq] at h
      subst h
      left; rfl

/-- C10: sessionToAccessToken never surfaces an error: a null or empty
session token yields the all-null object; any error raised inside the
try-block is converted to the all-null object; a successful body result
is returned as is; an in-page fetch that delivers data with a truthy
accessToken yields the access credential plus best-effort user/expiry
metadata; and every result either carries a non-empty access token or a
null one. -/
theorem sessionToAccessToken_no_raise (st : Option String) (env : TokenHarvestEnv) :
    (jsStrTruthy st = false → sessionToAccessToken st env = allNullTokens) ∧
    (∀ e, sessionToAccessTokenBody env = Except.error e →
      sessionToAccessToken st env = allNullTokens) ∧
    (∀ r, jsStrTruthy st = true → sessionToAccessTokenBody env = Except.ok r →
      sessionToAccessToken st env = r) ∧
    (∀ d, jsStrTruthy st = true → env.fetchEval = Except.ok (Except.ok d) →
      jsStrTruthy d.accessToken = true →
      sessionToAccessToken st env = successTokens d) ∧
    ((sessionToAccessToken st env).accessToken = none ∨
      jsStrTruthy (sessionToAccessToken st env).accessToken = true) := by
  refine ⟨?_, ?_, ?_, ?_, ?_⟩
  · intro hst
    simp [sessionToAccessToken, hst]
  · intro e he
    unfold sessionToAccessToken
    rcases hst : jsStrTruthy st with _ | _
    · simp
    · simp [he]
  · intro r hst hr
    simp [sessionToAccessToken, hst, hr]
  · intro d hst hd htok
    have hbody : sessionToAccessTokenBody env = Except.ok (successTokens d) := by
      simp [sessionToAccessTokenBody, hd, htok]
    simp [sessionToAccessToken, hst, hbody]
  · by_cases hst : jsStrTruthy st = false
    · left
      simp [sessionToAccessToken, hst, allNullTokens]
    · rcases hb : sessionToAccessTokenBody env with e | r
      · left
        simp [sessionToAccessToken, hst, hb, allNullTokens]
      · rcases sessionToAccessTokenBody_shape env r hb with hnone | htr
        · left
          simp [sessionToAccessToken, hst, hb, hnone]
        · right
          simp [sessionToAccessToken, hst, hb, htr]

/-- Witness for C10 at concrete environments: a fetch that throws with
a failing cookie write ends in the all-null object, and a fetch
delivering a token succeeds with that token. -/
theorem sessionToAccessToken_no_raise_witness :
    sessionToAccessToken (some "tok")
      { fetchEval := Except.error ⟨"net down"⟩
        setCookie := Except.error ⟨"net down"⟩
        gotoResp := Except.error ⟨"net down"⟩
        pageContent := Except.error ⟨"net down"⟩
        bodyText := Except.error ⟨"net down"⟩
        jsonParse := fun _ => Except.error ⟨"bad json"⟩ } = allNullTokens ∧
    sessionToAccessToken (some "tok")
      { fetchEval := Except.ok (Except.ok ⟨some "at", some "u@x.io", some "2026-01-01"⟩)
        setCookie := Except.ok ()
        gotoResp := Except.ok (some true)
        pageContent := Except.ok ""
        bodyText := Except.ok ""
        jsonParse := fun _ => Except.error ⟨"bad json"⟩ }
      = { accessToken := some "at", user := some "u@x.io", expires := some "2026-01-01" } := by
  constructor
  · exact (sessionToAccessToken_no_raise (some "tok") _).2.1 ⟨"net down"⟩ rfl
  · exact (sessionToAccessToken_no_raise (some "tok") _).2.2.2.1
      ⟨some "at", some "u@x.io", some "2026-01-01"⟩ rfl rfl rfl

end SoraSpec
